import Mathlib

/-!
Verification of the single-active-video feed engine (the `VideoScroll` screen and
its hooks) against its natural-language specification.

The definitions below are a shallow embedding of the TypeScript source
(`src/unnamed/part_003`, lines 664-1959).  JavaScript objects used as string-keyed
maps become association lists, `async` functions become explicit step machines
whose atomic blocks are the synchronous regions between `await` suspension points,
and the managed backend (supabase) becomes an explicit relational state with the
`UNIQUE(video_id, user_id)` constraints from `src/supabase/migrations`.
Latitude/longitude values are only ever copied between records, never computed
with, so they are modelled as integers.
-/

/-- The `Video` record of the feed screen (interface `Video`, part_003:688-700),
with the author summary fields dropped (they never interact with the claims). -/
structure Video where
  id : String
  user_id : String
  title : String
  description : String
  like_count : Int
  bookmark_count : Option Int
  address : Option String
  latitude : Option Int
  longitude : Option Int
deriving DecidableEq

/-- Per-video interaction flags (interface `VideoInteraction`, part_003:707-710). -/
structure VideoInteraction where
  isLiked : Bool
  isBookmarked : Bool
deriving DecidableEq

/-- The `interactions` state object keyed by video id (a JS object used as a map). -/
abbrev InteractionMap := List (String × VideoInteraction)

/-- Lookup of `interactions[videoId]` (JS property access: `undefined` when absent). -/
def lookupEntry (m : InteractionMap) (videoId : String) : Option VideoInteraction :=
  (m.find? (fun p => p.1 == videoId)).map (fun p => p.2)

/-- The read `interactions[videoId]?.isLiked` (part_003:901): `undefined` is falsy,
so an absent entry reads as `false`. -/
def readIsLiked (m : InteractionMap) (videoId : String) : Bool :=
  (lookupEntry m videoId).elim false (fun e => e.isLiked)

/-- The read `interactions[videoId]?.isBookmarked` (part_003:952). -/
def readIsBookmarked (m : InteractionMap) (videoId : String) : Bool :=
  (lookupEntry m videoId).elim false (fun e => e.isBookmarked)

/-- JS object spread update `{...prev, [videoId]: e}`: replace the entry in place
when the key exists, append it otherwise (JS preserves first-insertion key order). -/
def setEntry (m : InteractionMap) (videoId : String) (e : VideoInteraction) : InteractionMap :=
  if (m.find? (fun p => p.1 == videoId)).isSome then
    m.map (fun p => if p.1 == videoId then (videoId, e) else p)
  else
    m ++ [(videoId, e)]

/-- The `setInteractions` updater of `handleLike` (part_003:935-941):
`{...prev, [videoId]: {...prev[videoId], isLiked: !isLiked}}`, where `isLiked` is
the snapshot read before the mutation was issued and the spread of a possibly
absent entry leaves `isBookmarked` falsy. -/
def applyLikeFlip (m : InteractionMap) (videoId : String) (snapshot : Bool) : InteractionMap :=
  setEntry m videoId
    { isLiked := !snapshot
      isBookmarked := (lookupEntry m videoId).elim false (fun e => e.isBookmarked) }

/-- The `setInteractions` updater of `handleBookmark` (part_003:986-992). -/
def applyBookmarkFlip (m : InteractionMap) (videoId : String) (snapshot : Bool) : InteractionMap :=
  setEntry m videoId
    { isLiked := (lookupEntry m videoId).elim false (fun e => e.isLiked)
      isBookmarked := !snapshot }

/-- The `setVideos` updater of `handleLike` (part_003:912-918 and 926-932):
adjust `like_count` of the matching video by the given delta (`-1` in the delete
branch, `+1` in the insert branch). -/
def adjustLikeCount (videos : List Video) (videoId : String) (delta : Int) : List Video :=
  videos.map (fun v =>
    if v.id == videoId then { v with like_count := v.like_count + delta } else v)

/-- JavaScript `x || d` over an optional number: `undefined` and `0` are falsy. -/
def jsOr (x : Option Int) (d : Int) : Int :=
  match x with
  | none => d
  | some n => if n == 0 then d else n

/-- The `setVideos` updater of `handleBookmark` (part_003:963-969 and 977-983):
`(video.bookmark_count || 1) - 1` when removing, `(video.bookmark_count || 0) + 1`
when adding. -/
def adjustBookmarkCount (videos : List Video) (videoId : String) (snapshot : Bool) : List Video :=
  videos.map (fun v =>
    if v.id == videoId then
      let n : Int := if snapshot then jsOr v.bookmark_count 1 - 1 else jsOr v.bookmark_count 0 + 1
      { v with bookmark_count := some n }
    else v)

/-- The client-side state touched by the interaction handlers: the `videos` list
and the `interactions` map. -/
structure FeedState where
  videos : List Video
  interactions : InteractionMap
deriving DecidableEq

/-- The relevant backend tables.  Both `video_likes` and `video_bookmarks` carry a
`UNIQUE(video_id, user_id)` constraint (`src/supabase/migrations`), so a row is a
`(video_id, user_id)` pair and a duplicate insert is rejected. -/
structure Backend where
  video_likes : List (String × String)
  video_bookmarks : List (String × String)
deriving DecidableEq

/-- Insert into `video_likes` (part_003:920-922).  Returns the new table and
whether the backend reported an error (the unique-constraint violation). -/
def insertLikeRow (b : Backend) (videoId userId : String) : Backend × Bool :=
  if (videoId, userId) ∈ b.video_likes then (b, true)
  else ({ b with video_likes := b.video_likes ++ [(videoId, userId)] }, false)

/-- Delete from `video_likes` matching both `video_id` and `user_id`
(part_003:904-908).  Deleting zero rows is not an error. -/
def deleteLikeRow (b : Backend) (videoId userId : String) : Backend × Bool :=
  ({ b with video_likes := b.video_likes.filter (fun r => !(r.1 == videoId && r.2 == userId)) },
    false)

/-- Insert into `video_bookmarks` (part_003:971-973). -/
def insertBookmarkRow (b : Backend) (videoId userId : String) : Backend × Bool :=
  if (videoId, userId) ∈ b.video_bookmarks then (b, true)
  else ({ b with video_bookmarks := b.video_bookmarks ++ [(videoId, userId)] }, false)

/-- Delete from `video_bookmarks` (part_003:955-959). -/
def deleteBookmarkRow (b : Backend) (videoId userId : String) : Backend × Bool :=
  ({ b with
      video_bookmarks := b.video_bookmarks.filter (fun r => !(r.1 == videoId && r.2 == userId)) },
    false)

/-- Environment of one handler invocation: what `supabase.auth.getUser()` resolves
to, and whether the interaction mutation is made to fail at the transport level. -/
structure MutationCfg where
  auth : Option String
  netFail : Bool
deriving DecidableEq

/-- Backend requests issued by the interaction handlers. -/
inductive LikeCall where
  | deleteLike (videoId userId : String) : LikeCall
  | insertLike (videoId userId : String) : LikeCall
  | deleteBookmark (videoId userId : String) : LikeCall
  | insertBookmark (videoId userId : String) : LikeCall
deriving DecidableEq

/-- Program counter of one `handleLike`/`handleBookmark` invocation.  The handler
has two `await` suspension points, so it runs as two atomic blocks: `invoked`
(waiting for `getUser`) and `issued` (mutation in flight). -/
inductive LikePC where
  | invoked : LikePC
  | issued : LikePC
  | finished : LikePC
deriving DecidableEq

/-- Thread state of one in-flight handler call. -/
structure LikeThread where
  videoId : String
  pc : LikePC
  snapshot : Bool
  mutErr : Bool
deriving DecidableEq

def initLikeThread (videoId : String) : LikeThread :=
  { videoId := videoId, pc := .invoked, snapshot := false, mutErr := false }

/-- One atomic block of `handleLike` (part_003:896-945).
Block `invoked` resumes after `await supabase.auth.getUser()`: it returns when no
user is present, otherwise reads the `isLiked` snapshot and issues the delete or
insert mutation.  Block `issued` resumes when the mutation settles: a transport
failure or constraint violation throws into the `catch` (which only logs), and on
success the two functional state updates run in the same synchronous block. -/
def likeStep (cfg : MutationCfg) (s : FeedState) (b : Backend) (t : LikeThread) :
    FeedState × Backend × LikeThread × List LikeCall :=
  match t.pc with
  | .invoked =>
    match cfg.auth with
    | none => (s, b, { t with pc := .finished }, [])
    | some u =>
      let snap := readIsLiked s.interactions t.videoId
      (s, b, { t with pc := .issued, snapshot := snap },
        [if snap then .deleteLike t.videoId u else .insertLike t.videoId u])
  | .issued =>
    match cfg.auth with
    | none => (s, b, { t with pc := .finished }, [])
    | some u =>
      let res :=
        if cfg.netFail then (b, true)
        else if t.snapshot then deleteLikeRow b t.videoId u
        else insertLikeRow b t.videoId u
      if res.2 then (s, res.1, { t with pc := .finished, mutErr := true }, [])
      else
        ({ videos := adjustLikeCount s.videos t.videoId (if t.snapshot then -1 else 1)
           interactions := applyLikeFlip s.interactions t.videoId t.snapshot },
          res.1, { t with pc := .finished }, [])
  | .finished => (s, b, t, [])

/-- One atomic block of `handleBookmark` (part_003:947-996), structurally identical
to `likeStep` over the bookmark table and counter. -/
def bookmarkStep (cfg : MutationCfg) (s : FeedState) (b : Backend) (t : LikeThread) :
    FeedState × Backend × LikeThread × List LikeCall :=
  match t.pc with
  | .invoked =>
    match cfg.auth with
    | none => (s, b, { t with pc := .finished }, [])
    | some u =>
      let snap := readIsBookmarked s.interactions t.videoId
      (s, b, { t with pc := .issued, snapshot := snap },
        [if snap then .deleteBookmark t.videoId u else .insertBookmark t.videoId u])
  | .issued =>
    match cfg.auth with
    | none => (s, b, { t with pc := .finished }, [])
    | some u =>
      let res :=
        if cfg.netFail then (b, true)
        else if t.snapshot then deleteBookmarkRow b t.videoId u
        else insertBookmarkRow b t.videoId u
      if res.2 then (s, res.1, { t with pc := .finished, mutErr := true }, [])
      else
        ({ videos := adjustBookmarkCount s.videos t.videoId t.snapshot
           interactions := applyBookmarkFlip s.interactions t.videoId t.snapshot },
          res.1, { t with pc := .finished }, [])
  | .finished => (s, b, t, [])

/-- Observable outcome of running one handler call to completion in isolation:
`mid` is the client state while the mutation is in flight (between the two atomic
blocks), `final` the state after the handler returns. -/
structure LikeRun where
  mid : FeedState
  final : FeedState
  backend : Backend
  calls : List LikeCall
  err : Bool
deriving DecidableEq

/-- A complete uninterleaved run of `handleLike(videoId)`. -/
def handleLikeRun (cfg : MutationCfg) (videoId : String) (s : FeedState) (b : Backend) : LikeRun :=
  match likeStep cfg s b (initLikeThread videoId) with
  | (s1, b1, t1, c1) =>
    match likeStep cfg s1 b1 t1 with
    | (s2, b2, t2, c2) =>
      { mid := s1, final := s2, backend := b2, calls := c1 ++ c2, err := t2.mutErr }

/-- A complete uninterleaved run of `handleBookmark(videoId)`. -/
def handleBookmarkRun (cfg : MutationCfg) (videoId : String) (s : FeedState) (b : Backend) :
    LikeRun :=
  match bookmarkStep cfg s b (initLikeThread videoId) with
  | (s1, b1, t1, c1) =>
    match bookmarkStep cfg s1 b1 t1 with
    | (s2, b2, t2, c2) =>
      { mid := s1, final := s2, backend := b2, calls := c1 ++ c2, err := t2.mutErr }

/-- Shared configuration of two concurrent `handleLike` calls on the same screen. -/
structure LikePair where
  state : FeedState
  backend : Backend
  threadA : LikeThread
  threadB : LikeThread
  calls : List LikeCall
deriving DecidableEq

def initLikePair (videoId : String) (s : FeedState) (b : Backend) : LikePair :=
  { state := s, backend := b, threadA := initLikeThread videoId,
    threadB := initLikeThread videoId, calls := [] }

/-- Run one atomic block of thread A (`pickA = true`) or thread B under the
single-threaded event loop: blocks never overlap, only their order varies. -/
def likePairStep (cfg : MutationCfg) (p : LikePair) (pickA : Bool) : LikePair :=
  if pickA then
    match likeStep cfg p.state p.backend p.threadA with
    | (s, b, t, cs) =>
      { state := s, backend := b, threadA := t, threadB := p.threadB, calls := p.calls ++ cs }
  else
    match likeStep cfg p.state p.backend p.threadB with
    | (s, b, t, cs) =>
      { state := s, backend := b, threadA := p.threadA, threadB := t, calls := p.calls ++ cs }

/-- Execute a schedule (one entry per atomic block, `true` = thread A). -/
def runLikeSchedule (cfg : MutationCfg) (p : LikePair) (sched : List Bool) : LikePair :=
  sched.foldl (likePairStep cfg) p

/-- One entry of the `changed` array delivered to `onViewableItemsChanged`. -/
structure ViewableItem where
  index : Nat
  isViewable : Bool
deriving DecidableEq

/-- The viewability callback (part_003:726-730): it looks only at `changed[0]` and,
when that item is viewable, makes its index the current one; otherwise the current
index is kept.  React Native never delivers an empty `changed` array; the empty
case is mapped to "no change". -/
def handleViewableItemsChanged (changed : List ViewableItem) (currentIndex : Nat) : Nat :=
  match changed with
  | [] => currentIndex
  | c :: _ => if c.isViewable then c.index else currentIndex

/-- The current index after a sequence of viewability events (initial state of
`currentIndex` is `0`, part_003:722). -/
def runViewabilityEvents (events : List (List ViewableItem)) (start : Nat) : Nat :=
  events.foldl (fun idx e => handleViewableItemsChanged e idx) start

/-- The successive values taken by `currentIndex` while processing the events. -/
def indexTrace (events : List (List ViewableItem)) (start : Nat) : List Nat :=
  match events with
  | [] => []
  | e :: rest =>
    let nxt := handleViewableItemsChanged e start
    nxt :: indexTrace rest nxt

/-- Pages whose player receives a start command: a page starts exactly when it
becomes the current index (its `shouldPlay`/`autoPlay` prop turns true,
part_003:792 and 805), and the feed mounts with `currentIndex = 0`. -/
def pagesStarted (events : List (List ViewableItem)) : List Nat :=
  0 :: indexTrace events 0

/-- The `isCurrentVideo` prop computed by `renderItem` (part_003:1320):
`videoState.currentIndex === videos.indexOf(item)`. -/
def isCurrentVideo (videos : List Video) (currentIndex : Nat) (item : Video) : Bool :=
  currentIndex == videos.indexOf item

/-- Number of rendered players in the playing transport state, over an arbitrary
window of mounted pages: a mounted player plays iff its `isCurrentVideo` prop is
true (`shouldPlay={isCurrentVideo}`, part_003:805). -/
def playingCount (videos window : List Video) (currentIndex : Nat) : Nat :=
  (window.filter (fun v => isCurrentVideo videos currentIndex v)).length

/-- State of one `useVideoState()` hook instance (part_003:721-739): only the
fields the mute claims touch. -/
structure VideoStateHook where
  currentIndex : Nat
  isMuted : Bool
deriving DecidableEq

/-- Initial hook state: `useState(0)`, `useState(false)` (part_003:722-723). -/
def useVideoStateInit : VideoStateHook :=
  { currentIndex := 0, isMuted := false }

/-- The mute button handler (part_003:1421-1423):
`videoState.setIsMuted(!videoState.isMuted)` on the screen's hook instance. -/
def muteButtonPress (screen : VideoStateHook) : VideoStateHook :=
  { screen with isMuted := !screen.isMuted }

/-- The `muted`/`isMuted` prop a rendered player passes to its media element
(part_003:791 and 807): it reads `videoState.isMuted` of the hook instance the
`VideoPlayer` component itself created. -/
def videoPlayerMutedProp (own : VideoStateHook) : Bool :=
  own.isMuted

/-- The hook instance of the module-level `VideoPlayer` (part_003:777-778): that
component calls `useVideoState()` itself, creating a fresh instance, and no code
path inside it ever calls the instance's `setIsMuted`, so the instance keeps its
initial value for as long as the player is mounted.  (An unused second
`VideoPlayer`, part_003:1250-1282, closes over the screen's instance instead, but
`renderItem` uses `MemoizedVideoPlayer`, which wraps the module-level one.) -/
def videoPlayerOwnState : VideoStateHook :=
  useVideoStateInit

/-- Argument of `Audio.setAudioModeAsync` restricted to the fields the teardown
code sets. -/
structure AudioMode where
  playsInSilentModeIOS : Bool
  staysActiveInBackground : Bool
deriving DecidableEq

/-- Commands the screen could issue while tearing down. -/
inductive TeardownCommand where
  | setAudioMode (m : AudioMode) : TeardownCommand
  | stopHandle (videoId : String) : TeardownCommand
deriving DecidableEq

/-- The cleanup returned by the mount effect (part_003:838-843): it calls
`Audio.setAudioModeAsync({playsInSilentModeIOS: false, staysActiveInBackground:
false})` and nothing else; in particular it never consults the ref registry, so
the list of commands does not depend on the registered handles.  No other exit
path (no AppState/backgrounding listener) runs any teardown code. -/
def teardownCleanup (registered : List String) : List TeardownCommand :=
  [.setAudioMode { playsInSilentModeIOS := false, staysActiveInBackground := false }]

/-- One batched interaction query: `.from(table).select('video_id')
.eq('user_id', userId).in('video_id', videoIds)` (part_003:1004-1008, 1013-1017). -/
structure InteractionQuery where
  table : String
  user_id_eq : String
  video_id_in : List String
deriving DecidableEq

/-- Backend requests issued while loading the feed and initializing interaction
state (`loadVideos`, part_003:1069-1103, and `saveVideoChanges`). -/
inductive DataCall where
  | authGetUser : DataCall
  | selectVideos : DataCall
  | selectProfile (user_id : String) : DataCall
  | interaction (q : InteractionQuery) : DataCall
  | updateVideo (id title description address : String)
      (latitude longitude : Option Int) : DataCall
deriving DecidableEq

/-- The two batched queries issued by `checkUserInteractions(userId, videoIds)`
(part_003:1002-1034): one over `video_likes`, then one over `video_bookmarks`,
each filtered to the given user and restricted with `.in` to the given id set. -/
def checkUserInteractionsQueries (userId : String) (videoIds : List String) :
    List InteractionQuery :=
  [{ table := "video_likes", user_id_eq := userId, video_id_in := videoIds },
   { table := "video_bookmarks", user_id_eq := userId, video_id_in := videoIds }]

/-- The interaction map built from the two query results (part_003:1011, 1020,
1022-1030): membership of each loaded id in the liked and bookmarked sets. -/
def checkUserInteractionsResult (b : Backend) (userId : String) (videoIds : List String) :
    InteractionMap :=
  let likedVideos :=
    (b.video_likes.filter (fun r => r.2 == userId && videoIds.contains r.1)).map (fun r => r.1)
  let bookmarkedVideos :=
    (b.video_bookmarks.filter (fun r => r.2 == userId && videoIds.contains r.1)).map (fun r => r.1)
  videoIds.map (fun videoId =>
    (videoId, { isLiked := likedVideos.contains videoId
                isBookmarked := bookmarkedVideos.contains videoId }))

/-- The backend requests issued by one successful `loadVideos()` pass
(part_003:1069-1103): `getUser`, the videos select, one `ensureProfile` lookup per
loaded video, then the two batched interaction queries of
`checkUserInteractions`.  With no authenticated user it returns after `getUser`. -/
def loadVideosCalls (auth : Option String) (videosData : List Video) : List DataCall :=
  match auth with
  | none => [.authGetUser]
  | some u =>
    .authGetUser :: .selectVideos ::
      (videosData.map (fun v => .selectProfile v.user_id) ++
        (checkUserInteractionsQueries u (videosData.map (fun v => v.id))).map .interaction)

/-- The interaction-state queries among a list of backend requests. -/
def interactionQueriesOf (calls : List DataCall) : List InteractionQuery :=
  calls.filterMap (fun c =>
    match c with
    | .interaction q => some q
    | _ => none)

/-- The edit draft (interface `EditVideoData`, part_003:712-719). -/
structure EditVideoData where
  id : String
  title : String
  description : String
  address : String
  latitude : Option Int
  longitude : Option Int
deriving DecidableEq

/-- The screen state touched by `saveVideoChanges` (part_003:745-749, 825). -/
structure EditSessionState where
  videos : List Video
  editModalVisible : Bool
  editVideoData : Option EditVideoData
  locationError : Option String
  saving : Bool
deriving DecidableEq

/-- The patch `saveVideoChanges` applies to the feed copy on success
(part_003:1226-1239): the matching video gets the draft's five editable fields,
every other video is returned unchanged. -/
def applyEditPatch (d : EditVideoData) (v : Video) : Video :=
  if v.id == d.id then
    { v with title := d.title, description := d.description, address := some d.address,
             latitude := d.latitude, longitude := d.longitude }
  else v

/-- The `saveVideoChanges` handler (part_003:1207-1248).  `netOk` is whether the
backend update succeeds.  Without a draft it returns immediately.  Otherwise it
issues the update; on failure the `catch` sets the error message and the
`finally` clears `saving` — the modal, the draft and the videos are untouched; on
success it patches the matching video in place and closes the modal (no re-fetch
is issued).  The result pairs the new state with the backend requests issued. -/
def saveVideoChanges (netOk : Bool) (s : EditSessionState) : EditSessionState × List DataCall :=
  match s.editVideoData with
  | none => (s, [])
  | some d =>
    let call := DataCall.updateVideo d.id d.title d.description d.address d.latitude d.longitude
    if netOk then
      ({ s with videos := s.videos.map (applyEditPatch d), editModalVisible := false,
                saving := false },
        [call])
    else
      ({ s with locationError := some "Failed to update video", saving := false }, [call])

/-- A one-element feed holding video `"v"` with a given like count, used by the
concrete runs below. -/
def sampleVideo (likes : Int) : Video :=
  { id := "v", user_id := "owner", title := "t", description := "", like_count := likes,
    bookmark_count := none, address := none, latitude := none, longitude := none }

/-- Feed state in which the current user has not liked `"v"`. -/
def unlikedFeed (likes : Int) : FeedState :=
  { videos := [sampleVideo likes], interactions := [] }

/-- Feed state in which the current user has liked `"v"`. -/
def likedFeed (likes : Int) : FeedState :=
  { videos := [sampleVideo likes],
    interactions := [("v", { isLiked := true, isBookmarked := false })] }

def emptyBackend : Backend :=
  { video_likes := [], video_bookmarks := [] }

/-- Backend holding the row recording that user `"u"` liked `"v"`. -/
def likedBackend : Backend :=
  { video_likes := [("v", "u")], video_bookmarks := [] }

def videoA : Video :=
  { id := "a", user_id := "ua", title := "", description := "", like_count := 0,
    bookmark_count := none, address := none, latitude := none, longitude := none }

def videoB : Video :=
  { id := "b", user_id := "ub", title := "", description := "", like_count := 0,
    bookmark_count := none, address := none, latitude := none, longitude := none }

/-- A concrete edit draft for video `"v"`. -/
def draft0 : EditVideoData :=
  { id := "v", title := "new title", description := "new description", address := "addr",
    latitude := some 7, longitude := some 8 }

/-- Whether a single viewability event makes page `p` current: its first changed
entry is viewable and reports index `p` (mirrors the `changed[0]` access of
`handleViewableItemsChanged`). -/
def eventActivates (e : List ViewableItem) (p : Nat) : Prop :=
  match e with
  | [] => False
  | c :: _ => c.isViewable = true ∧ p = c.index

/-- C5: the mute button flips the screen hook's single boolean, but the rendered
player's muted prop reads the fresh hook instance that the module-level
`VideoPlayer` created for itself, whose `isMuted` is never set; after one press
the global flag is `true` while every rendered player stays unmuted, so the
players do not honor the global flag. -/
theorem C5_player_ignores_global_mute :
    (muteButtonPress useVideoStateInit).isMuted = true ∧
    videoPlayerMutedProp videoPlayerOwnState = false ∧
    videoPlayerMutedProp videoPlayerOwnState ≠ (muteButtonPress useVideoStateInit).isMuted := by
  decide

/-- C7 counterexample: with a player handle registered for `"v1"`, the teardown
cleanup issues no stop command to it (the cleanup only resets the audio mode),
refuting the claim that every registered handle receives a stop command. -/
theorem C7_counterexample :
    "v1" ∈ ["v1"] ∧
    TeardownCommand.stopHandle "v1" ∉ teardownCleanup ["v1"] := by
  decide

/-- C7 amended: the only teardown work is the unmount cleanup, and it consists of
exactly one command — resetting the audio mode to a non-intrusive configuration
(`playsInSilentModeIOS: false`, `staysActiveInBackground: false`); no stop command
is ever issued to any registered handle. -/
theorem C7_amended_teardown (registered : List String) :
    teardownCleanup registered =
      [TeardownCommand.setAudioMode
        { playsInSilentModeIOS := false, staysActiveInBackground := false }] ∧
    ∀ videoId, TeardownCommand.stopHandle videoId ∉ teardownCleanup registered := by
  refine ⟨rfl, fun videoId h => ?_⟩
  simp [teardownCleanup] at h

/-- C10: with no authenticated user, `handleLike` and `handleBookmark` return
right after `getUser`, issuing no backend mutation, changing no video counter or
interaction flag, and reporting no error. -/
theorem C10_unauthenticated_noop (videoId : String) (netFail : Bool)
    (s : FeedState) (b : Backend) :
    handleLikeRun { auth := none, netFail := netFail } videoId s b =
      { mid := s, final := s, backend := b, calls := [], err := false } ∧
    handleBookmarkRun { auth := none, netFail := netFail } videoId s b =
      { mid := s, final := s, backend := b, calls := [], err := false } := by
  constructor <;> rfl

/-- C3: when the mutation issued by `handleLike` fails, the handler leaves the
entire client state and the backend exactly as they were before the toggle, and
issues exactly one mutation attempt (no automatic retry). -/
theorem C3_failed_toggle_reverts (videoId u : String) (s : FeedState) (b : Backend) :
    (handleLikeRun { auth := some u, netFail := true } videoId s b).final = s ∧
    (handleLikeRun { auth := some u, netFail := true } videoId s b).backend = b ∧
    (handleLikeRun { auth := some u, netFail := true } videoId s b).err = true ∧
    (handleLikeRun { auth := some u, netFail := true } videoId s b).calls.length = 1 := by
  by_cases hs : readIsLiked s.interactions videoId <;>
    simp [handleLikeRun, likeStep, initLikeThread, hs]

/-- C2 counterexample: a successful like of video `"v"` (like_count 3, not yet
liked).  While the insert mutation is in flight the local state is unchanged
(count still 3, `isLiked` still false), contradicting the claim that the flip and
the ±1 adjustment are applied before the mutation settles; the change appears
only in the final state, after the mutation has succeeded. -/
theorem C2_counterexample :
    (handleLikeRun { auth := some "u", netFail := false } "v" (unlikedFeed 3) emptyBackend).mid
      = unlikedFeed 3 ∧
    ((handleLikeRun { auth := some "u", netFail := false } "v" (unlikedFeed 3)
        emptyBackend).mid.videos.map (fun v => v.like_count)) = [3] ∧
    readIsLiked (handleLikeRun { auth := some "u", netFail := false } "v" (unlikedFeed 3)
        emptyBackend).mid.interactions "v" = false ∧
    ((handleLikeRun { auth := some "u", netFail := false } "v" (unlikedFeed 3)
        emptyBackend).final.videos.map (fun v => v.like_count)) = [4] ∧
    readIsLiked (handleLikeRun { auth := some "u", netFail := false } "v" (unlikedFeed 3)
        emptyBackend).final.interactions "v" = true := by
  decide

/-- C6 counterexample: the viewability signal of a fling from page 0 to page 2
whose crossing of page 1 passes the 50% threshold (the configured
`itemVisiblePercentThreshold`, with no `minimumViewTime` and no debounce in the
handler).  The feed settles on page 2, yet page 1 became the current index on the
way, so page 1's player received a start command — refuting the claim that it
never does. -/
theorem C6_counterexample :
    runViewabilityEvents [[{ index := 1, isViewable := true }],
        [{ index := 2, isViewable := true }]] 0 = 2 ∧
    1 ∈ pagesStarted [[{ index := 1, isViewable := true }],
        [{ index := 2, isViewable := true }]] := by
  decide

/-- C4 counterexample: two `handleLike("v")` taps, the second issued before the
first's backend response resolves, from a state where user `"u"` has liked `"v"`
(count 1, backend row present).  Nothing in `handleLike` rejects or queues the
second call, and in the interleaving where both calls read `isLiked` before
either response arrives, both take the delete branch: the final count is `-1`
with `isLiked = false` and zero rows on the backend.  Both serialized outcomes
the claim allows — rejecting the second toggle (count 0) or queueing it after
the first (count 1) — differ from this, so the calls are not serialized and the
counter is left inconsistent. -/
theorem C4_counterexample :
    ((runLikeSchedule { auth := some "u", netFail := false }
        (initLikePair "v" (likedFeed 1) likedBackend)
        [true, false, true, false]).state.videos.map (fun v => v.like_count)) = [-1] ∧
    readIsLiked (runLikeSchedule { auth := some "u", netFail := false }
        (initLikePair "v" (likedFeed 1) likedBackend)
        [true, false, true, false]).state.interactions "v" = false ∧
    (runLikeSchedule { auth := some "u", netFail := false }
        (initLikePair "v" (likedFeed 1) likedBackend)
        [true, false, true, false]).backend.video_likes = [] ∧
    ((handleLikeRun { auth := some "u", netFail := false } "v" (likedFeed 1)
        likedBackend).final.videos.map (fun v => v.like_count)) = [0] ∧
    ((handleLikeRun { auth := some "u", netFail := false } "v"
        (handleLikeRun { auth := some "u", netFail := false } "v" (likedFeed 1)
          likedBackend).final
        (handleLikeRun { auth := some "u", netFail := false } "v" (likedFeed 1)
          likedBackend).backend).final.videos.map (fun v => v.like_count)) = [1] := by
  decide

/-- C9: with an open modal and a draft, a failed save keeps the modal open and the
draft intact, sets the error message, clears `saving` and leaves every video
untouched; a successful save closes the modal, patches exactly the draft's five
editable fields into the matching video, and issues only the single update
request (no re-fetch); videos whose id differs from the draft's are returned
unchanged by the patch. -/
theorem C9_save_edit_outcome (d : EditVideoData) (videos : List Video)
    (locErr : Option String) (sav : Bool) :
    saveVideoChanges false
        { videos := videos, editModalVisible := true, editVideoData := some d,
          locationError := locErr, saving := sav } =
      ({ videos := videos, editModalVisible := true, editVideoData := some d,
         locationError := some "Failed to update video", saving := false },
       [DataCall.updateVideo d.id d.title d.description d.address d.latitude d.longitude]) ∧
    saveVideoChanges true
        { videos := videos, editModalVisible := true, editVideoData := some d,
          locationError := locErr, saving := sav } =
      ({ videos := videos.map (applyEditPatch d), editModalVisible := false,
         editVideoData := some d, locationError := locErr, saving := false },
       [DataCall.updateVideo d.id d.title d.description d.address d.latitude d.longitude]) ∧
    (∀ v : Video, (v.id == d.id) = false → applyEditPatch d v = v) := by
  refine ⟨rfl, rfl, fun v hv => ?_⟩
  simp [applyEditPatch, hv]

/-- C9 witness: concrete instance of the save outcomes — failure keeps the modal
open with the error message and success closes it — with the patch leaving the
non-matching video `videoA` unchanged. -/
theorem C9_witness :
    ((saveVideoChanges false
        { videos := [sampleVideo 3, videoA], editModalVisible := true,
          editVideoData := some draft0, locationError := none, saving := false }).1.editModalVisible
      = true) ∧
    ((saveVideoChanges true
        { videos := [sampleVideo 3, videoA], editModalVisible := true,
          editVideoData := some draft0, locationError := none, saving := false }).1.editModalVisible
      = false) ∧
    applyEditPatch draft0 videoA = videoA :=
  ⟨by rw [(C9_save_edit_outcome draft0 [sampleVideo 3, videoA] none false).1],
   by rw [(C9_save_edit_outcome draft0 [sampleVideo 3, videoA] none false).2.1],
   (C9_save_edit_outcome draft0 [sampleVideo 3, videoA] none false).2.2 videoA (by decide)⟩

/-- C8: one successful `loadVideos` pass over any feed issues exactly two
interaction-state queries — the batched liked-set query and the batched
bookmarked-set query of `checkUserInteractions` — each restricted with `.in` to
the loaded video-id set, regardless of the number of loaded videos (the per-video
requests are profile lookups, not interaction queries). -/
theorem C8_batched_interaction_queries (u : String) (videosData : List Video) :
    interactionQueriesOf (loadVideosCalls (some u) videosData) =
      [{ table := "video_likes", user_id_eq := u,
         video_id_in := videosData.map (fun v => v.id) },
       { table := "video_bookmarks", user_id_eq := u,
         video_id_in := videosData.map (fun v => v.id) }] := by
  have hprof : ∀ (l : List Video),
      (l.map (fun v => DataCall.selectProfile v.user_id)).filterMap (fun c =>
        match c with
        | .interaction q => some q
        | _ => none) = [] := by
    intro l
    induction l with
    | nil => rfl
    | cons v t ih => simp [ih]
  simp [interactionQueriesOf, loadVideosCalls, checkUserInteractionsQueries,
    List.filterMap_append, hprof]

/-- C2 amended: `handleLike` is confirm-then-apply, not optimistic.  While the
mutation is in flight the local state is unchanged; the boolean flip and the ±1
counter adjustment are applied only once the mutation has resolved successfully,
and a failed mutation leaves the state exactly as it was (nothing was applied, so
nothing needs rolling back). -/
theorem C2_confirm_then_apply (videoId u : String) (netFail : Bool)
    (s : FeedState) (b : Backend) :
    (handleLikeRun { auth := some u, netFail := netFail } videoId s b).mid = s ∧
    ((handleLikeRun { auth := some u, netFail := netFail } videoId s b).err = false →
      (handleLikeRun { auth := some u, netFail := netFail } videoId s b).final =
        { videos := adjustLikeCount s.videos videoId
            (if readIsLiked s.interactions videoId then -1 else 1),
          interactions := applyLikeFlip s.interactions videoId
            (readIsLiked s.interactions videoId) }) ∧
    ((handleLikeRun { auth := some u, netFail := netFail } videoId s b).err = true →
      (handleLikeRun { auth := some u, netFail := netFail } videoId s b).final = s) := by
  by_cases hs : readIsLiked s.interactions videoId <;>
  by_cases hn : netFail <;>
  by_cases hm : (videoId, u) ∈ b.video_likes <;>
  simp [handleLikeRun, likeStep, initLikeThread, insertLikeRow, deleteLikeRow, hs, hn, hm]

/-- C4 amended: concurrent `handleLike` calls on the same video are not
serialized; both proceed, and the outcome depends on the interleaving and the
backend constraint.  In the rapid double-tap interleaving (both calls read
`isLiked` before either response): starting unliked, the second insert violates
`UNIQUE(video_id, user_id)` and is rejected by the backend, so the state stays
consistent (liked, count `c + 1`); starting liked, both deletes report success
(deleting zero rows is no error), so `like_count` is decremented twice to
`c - 2` although only one like row was removed — boolean and counter end up
inconsistent with the backend. -/
theorem C4_unserialized_interleavings (c : Int) :
    ((runLikeSchedule { auth := some "u", netFail := false }
        (initLikePair "v" (likedFeed c) likedBackend)
        [true, false, true, false]).state.videos.map (fun v => v.like_count)) = [c - 2] ∧
    readIsLiked (runLikeSchedule { auth := some "u", netFail := false }
        (initLikePair "v" (likedFeed c) likedBackend)
        [true, false, true, false]).state.interactions "v" = false ∧
    ((runLikeSchedule { auth := some "u", netFail := false }
        (initLikePair "v" (unlikedFeed c) emptyBackend)
        [true, false, true, false]).state.videos.map (fun v => v.like_count)) = [c + 1] ∧
    readIsLiked (runLikeSchedule { auth := some "u", netFail := false }
        (initLikePair "v" (unlikedFeed c) emptyBackend)
        [true, false, true, false]).state.interactions "v" = true := by
  refine ⟨?_, ?_, ?_, ?_⟩ <;>
    simp [runLikeSchedule, likePairStep, likeStep, initLikePair, initLikeThread,
      likedFeed, unlikedFeed, sampleVideo, likedBackend, emptyBackend,
      readIsLiked, lookupEntry, setEntry, applyLikeFlip, adjustLikeCount,
      deleteLikeRow, insertLikeRow]
  all_goals omega

/-- Helper for C6: if one event step lands the index on `p`, either the index was
already `p` or that event's first entry viewably reports `p`. -/
theorem eventActivates_of_step (e : List ViewableItem) (start p : Nat)
    (h3 : p = handleViewableItemsChanged e start) :
    p = start ∨ eventActivates e p := by
  cases e with
  | nil => exact Or.inl h3
  | cons c cs =>
    cases hv : c.isViewable with
    | true =>
      right
      simp only [handleViewableItemsChanged, hv, if_true] at h3
      exact ⟨hv, h3⟩
    | false =>
      left
      simpa [handleViewableItemsChanged, hv] using h3

/-- Helper for C6: an event whose first entry viewably reports `p` moves the
current index to `p` regardless of the previous index. -/
theorem step_of_eventActivates (e : List ViewableItem) (start p : Nat)
    (ha : eventActivates e p) : handleViewableItemsChanged e start = p := by
  cases e with
  | nil => exact ha.elim
  | cons c cs =>
    rcases ha with ⟨hv, hp⟩
    simp [handleViewableItemsChanged, hv, hp]

/-- Helper for C6: the indices the feed ever makes current are the start index
plus exactly the indices viewably reported at the head of some event. -/
theorem mem_indexTrace_iff (p : Nat) :
    ∀ (evs : List (List ViewableItem)) (start : Nat),
      (p = start ∨ p ∈ indexTrace evs start) ↔
        (p = start ∨ ∃ e ∈ evs, eventActivates e p) := by
  intro evs
  induction evs with
  | nil =>
    intro start
    simp [indexTrace]
  | cons e rest ih =>
    intro start
    have hunf : indexTrace (e :: rest) start
        = handleViewableItemsChanged e start
            :: indexTrace rest (handleViewableItemsChanged e start) := rfl
    rw [hunf]
    constructor
    · rintro (h1 | h2)
      · exact Or.inl h1
      · rcases List.mem_cons.mp h2 with h3 | h4
        · rcases eventActivates_of_step e start p h3 with h | h
          · exact Or.inl h
          · exact Or.inr ⟨e, List.mem_cons_self _ _, h⟩
        · rcases (ih _).mp (Or.inr h4) with h5 | h6
          · rcases eventActivates_of_step e start p h5 with h | h
            · exact Or.inl h
            · exact Or.inr ⟨e, List.mem_cons_self _ _, h⟩
          · rcases h6 with ⟨w, hw, ha⟩
            exact Or.inr ⟨w, List.mem_cons_of_mem _ hw, ha⟩
    · rintro (h1 | ⟨w, hw, ha⟩)
      · exact Or.inl h1
      · rcases List.mem_cons.mp hw with hwe | hwr
        · subst hwe
          right
          exact List.mem_cons.mpr (Or.inl (step_of_eventActivates w start p ha).symm)
        · rcases (ih (handleViewableItemsChanged e start)).mpr
            (Or.inr ⟨w, hwr, ha⟩) with h8 | h9
          · right
            exact List.mem_cons.mpr (Or.inl h8)
          · right
            exact List.mem_cons.mpr (Or.inr h9)

/-- C6 amended: the handler applies every delivered viewability event
immediately, with no settle debounce: a page's player receives a start command
exactly when the page is the initial page 0 or some delivered event viewably
reports it first.  In particular a fling from page 0 to page 2 keeps page 1
stopped only when the scroll delivers no ≥50%-visibility event for page 1; when
it does (the configured threshold, with no `minimumViewTime`), page 1 starts. -/
theorem C6_start_iff_reported (events : List (List ViewableItem)) (p : Nat) :
    p ∈ pagesStarted events ↔ p = 0 ∨ ∃ e ∈ events, eventActivates e p := by
  have h := mem_indexTrace_iff p events 0
  simpa [pagesStarted, List.mem_cons] using h

/-- Helper for C1: the current index stays within the feed as long as every
viewability event reports indices of actual pages. -/
theorem runViewabilityEvents_lt {n : Nat} :
    ∀ (events : List (List ViewableItem)) (start : Nat), start < n →
      (∀ e ∈ events, ∀ c ∈ e, c.isViewable = true → c.index < n) →
      runViewabilityEvents events start < n := by
  intro events
  induction events with
  | nil =>
    intro start h _
    simpa [runViewabilityEvents] using h
  | cons e rest ih =>
    intro start hstart hvalid
    have hstep : handleViewableItemsChanged e start < n := by
      cases e with
      | nil => simpa [handleViewableItemsChanged] using hstart
      | cons c cs =>
        cases hv : c.isViewable with
        | true =>
          have hc := hvalid (c :: cs) (List.mem_cons_self _ _) c (List.mem_cons_self _ _) hv
          simpa [handleViewableItemsChanged, hv] using hc
        | false =>
          simpa [handleViewableItemsChanged, hv] using hstart
    have hrw : runViewabilityEvents (e :: rest) start
        = runViewabilityEvents rest (handleViewableItemsChanged e start) := rfl
    rw [hrw]
    exact ih _ hstep (fun e' he' c hc hv => hvalid e' (List.mem_cons_of_mem _ he') c hc hv)

/-- Helper for C1: a duplicate-free list whose elements are pairwise equal has at
most one element. -/
theorem length_le_one_of_forall_eq {α : Type} {l : List α} (hn : l.Nodup)
    (h : ∀ x ∈ l, ∀ y ∈ l, x = y) : l.length ≤ 1 := by
  match l with
  | [] => simp
  | [_] => simp
  | a :: b :: t =>
    exfalso
    have hab : a = b := h a (by simp) b (by simp)
    rw [hab] at hn
    exact (List.nodup_cons.mp hn).1 (List.mem_cons_self _ _)

/-- Helper for C1: over any window of mounted pages, at most one rendered player
has a true `isCurrentVideo` prop (distinct feed entries have distinct
`indexOf` positions). -/
theorem playingCount_le_one (videos window : List Video) (i : Nat)
    (hnd : videos.Nodup) (hsub : window.Sublist videos) :
    playingCount videos window i ≤ 1 := by
  have hfsub : (window.filter (fun v => isCurrentVideo videos i v)).Sublist videos :=
    (List.filter_sublist _).trans hsub
  have hfn : (window.filter (fun v => isCurrentVideo videos i v)).Nodup :=
    List.Nodup.sublist hfsub hnd
  apply length_le_one_of_forall_eq hfn
  intro x hx y hy
  have hx' := List.mem_filter.mp hx
  have hy' := List.mem_filter.mp hy
  have hxv : x ∈ videos := hfsub.subset hx
  have hyv : y ∈ videos := hfsub.subset hy
  have hxi : i = videos.indexOf x := by
    have h2 := hx'.2
    simpa [isCurrentVideo] using h2
  have hyi : i = videos.indexOf y := by
    have h2 := hy'.2
    simpa [isCurrentVideo] using h2
  exact (List.indexOf_inj hxv hyv).mp (hxi ▸ hyi)

/-- Helper for C1: when the whole feed is rendered and the current index is in
range, exactly one player has a true `isCurrentVideo` prop. -/
theorem playingCount_eq_one (videos : List Video) (i : Nat) (hnd : videos.Nodup)
    (hi : i < videos.length) : playingCount videos videos i = 1 := by
  have hle := playingCount_le_one videos videos i hnd (List.Sublist.refl _)
  have hmem : videos[i] ∈ videos.filter (fun v => isCurrentVideo videos i v) := by
    rw [List.mem_filter]
    refine ⟨List.getElem_mem _, ?_⟩
    simp [isCurrentVideo, List.indexOf_getElem hnd i hi]
  have hpos : 0 < (videos.filter (fun v => isCurrentVideo videos i v)).length :=
    List.length_pos_of_mem hmem
  unfold playingCount at *
  omega

/-- C1: along any sequence of viewability events (each reporting indices of
actual pages) starting from the initial index 0, and for any window of mounted
players, at most one player is in the playing state at every observable point —
never two or more — and when the feed is non-empty exactly one of its rendered
players is playing.  Feed ids are distinct (they are database primary keys). -/
theorem C1_exactly_one_playing (videos window : List Video)
    (events : List (List ViewableItem))
    (hids : (videos.map (fun v => v.id)).Nodup)
    (hvalid : ∀ e ∈ events, ∀ c ∈ e, c.isViewable = true → c.index < videos.length)
    (hwin : window.Sublist videos) :
    playingCount videos window (runViewabilityEvents events 0) ≤ 1 ∧
    (videos ≠ [] → playingCount videos videos (runViewabilityEvents events 0) = 1) := by
  have hnd : videos.Nodup := List.Nodup.of_map _ hids
  refine ⟨playingCount_le_one _ _ _ hnd hwin, fun hne => ?_⟩
  exact playingCount_eq_one _ _ hnd
    (runViewabilityEvents_lt events 0 (List.length_pos.mpr hne) hvalid)

/-- C1 witness: a two-video feed scrolled to page 1 — the hypotheses hold and
exactly one player is playing. -/
theorem C1_witness :
    (([videoA, videoB].map (fun v => v.id)).Nodup ∧
      (∀ e ∈ [[({ index := 1, isViewable := true } : ViewableItem)]],
        ∀ c ∈ e, c.isViewable = true → c.index < [videoA, videoB].length) ∧
      [videoA, videoB].Sublist [videoA, videoB]) ∧
    (playingCount [videoA, videoB] [videoA, videoB]
        (runViewabilityEvents [[{ index := 1, isViewable := true }]] 0) ≤ 1 ∧
      ([videoA, videoB] ≠ [] →
        playingCount [videoA, videoB] [videoA, videoB]
          (runViewabilityEvents [[{ index := 1, isViewable := true }]] 0) = 1)) :=
  ⟨⟨by decide, by decide, List.Sublist.refl _⟩,
    C1_exactly_one_playing [videoA, videoB] [videoA, videoB]
      [[{ index := 1, isViewable := true }]] (by decide) (by decide) (List.Sublist.refl _)⟩
